import Mathlib

/-!
Shallow embedding of the HWAE spatial placement / zone generation engine.

Sources embedded here:
* `src/objects.py`   — `ObjectHandler`: mask primitives, `_find_location`,
  `add_zone`, `add_object_on_land_random`, `add_object_template_on_land_random`,
  `add_carrier_and_return_mask`, cached object mask maintenance.
* `src/models.py`    — `ZoneType`, `ZoneSubType`, `ZoneSize`, `ZoneMarker`,
  `ObjectContainer` and the size/radius lookup tables.
* `src/noisegen.py`  — `NoiseGenerator`: `randint`,
  `select_random_entry_from_2d_array`, `select_random_from_list`,
  `select_random_from_weighted_dict`.
* `src/zones.py`     — `ZoneManager`: weight/quota tables,
  `generate_random_zones` (selection loop), and
  `add_tiny_scrap_near_carrier_and_calc_rally`.
* `src/terrain.py`   — terrain heights are exposed through `get_height`;
  heights are modelled as exact integers (every claim only compares or adds
  heights, so nothing depends on fractional height values).

Modelling conventions:
* numpy 2-D arrays of shape (width, length) become functions
  `Nat → Nat → Int`; every write loop in the source touches only in-grid
  cells, so each imperative stamp loop is rendered pointwise: a cell holds
  the stamped value exactly when it is in-grid and covered by the stamp.
* Python floats are modelled exactly: `required_radius` (the one float that
  is rounded/truncated) as `ℚ`, heights and offsets (which are only compared
  and added) as `Int`; `round` is Python's round-half-to-even and `int(...)`
  truncates toward zero.
* The seeded global NumPy RNG is an oracle: a fixed stream `Nat → Nat`
  together with a draw counter; `np.random.randint(lo, hi)` consumes one
  stream value and reduces it modulo `hi - lo`, and raises `ValueError`
  when `hi ≤ lo`, exactly as NumPy does.
* Python exceptions are `Except PyErr`; `None` results are `Option`.
-/

/-- A terrain: `width`/`length` and the (already `MAP_SCALER`-scaled) height
at each grid cell, i.e. the value returned by `TerrainHandler.get_height`. -/
structure Terrain where
  width : Nat
  length : Nat
  height : Nat → Nat → Int

/-- A numpy 2-D mask array of shape (width, length), as a total function;
only in-grid cells are meaningful. -/
abbrev Mask := Nat → Nat → Int

/-- Squared Euclidean distance between grid cells (i, j) and (x, z). -/
def distSq (i j x z : Nat) : Int :=
  ((i : Int) - (x : Int)) * ((i : Int) - (x : Int)) +
    ((j : Int) - (z : Int)) * ((j : Int) - (z : Int))

/-- `ObjectHandler._update_mask_grid_with_radius`: set every in-grid cell
within Euclidean `radius` of (x, z) to `setTo`, all other cells unchanged.
The Python loop runs over the bound-clipped square around (x, z) and writes
exactly the in-grid cells with `dx*dx + dz*dz <= radius*radius`. -/
def updateMaskGridWithRadius (t : Terrain) (g : Mask) (x z : Nat)
    (radius : Nat) (setTo : Int) : Mask :=
  fun i j =>
    if i < t.width ∧ j < t.length ∧ distSq i j x z ≤ (radius : Int) * (radius : Int)
    then setTo else g i j

/-- `ObjectHandler._get_binary_transition_mask`: a cell is 1 when one of its
in-grid 4-neighbours holds a different value (the numpy slicing marks both
sides of every horizontal and vertical value change), else 0; the output is
zero outside the grid (`np.zeros_like`). -/
def binaryTransitionMask (t : Terrain) (g : Mask) : Mask :=
  fun i j =>
    if i < t.width ∧ j < t.length ∧
        ((0 < i ∧ g (i - 1) j ≠ g i j) ∨
         (i + 1 < t.width ∧ g (i + 1) j ≠ g i j) ∨
         (0 < j ∧ g i (j - 1) ≠ g i j) ∨
         (j + 1 < t.length ∧ g i (j + 1) ≠ g i j))
    then 1 else 0

/-- Scan of all in-grid cells in row-major order (`for x ...: for z ...:`). -/
def gridCells (t : Terrain) : List (Nat × Nat) :=
  (List.range t.width).flatMap fun x => (List.range t.length).map fun z => (x, z)

/-- Boolean "some in-grid cell satisfies p" (used to render the stamping
loops and `np.any`). -/
def gridAnyB (t : Terrain) (p : Nat → Nat → Bool) : Bool :=
  (List.range t.width).any fun x => (List.range t.length).any fun z => p x z

/-- `np.ones((width, length))`. -/
def onesMask : Mask := fun _ _ => 1

/-- `np.zeros((width, length))`. -/
def zerosMask : Mask := fun _ _ => 0

/-- Pointwise product of two masks (`mask *= other`). -/
def mulMask (a b : Mask) : Mask := fun i j => a i j * b i j

/-- The binarised terrain used for shoreline detection in `_get_land_mask`
and `_get_coast_mask`: heights `< 0` are clipped to 0 and heights `> 0` to 1,
so a cell is 1 exactly when its height is positive. -/
def heightBinaryMask (t : Terrain) : Mask :=
  fun i j => if i < t.width ∧ j < t.length ∧ 0 < t.height i j then 1 else 0

/-- `ObjectHandler._get_land_mask(cutoff_height)`: base mask is 1 where
`height > cutoff`; then, for every transition cell of the binarised terrain,
a disc of radius 2 is stamped with value **1** (`set_to=1` in the source).
A cell is therefore 1 when it is within distance 2 of some terrain
sign-transition cell, and otherwise holds the height comparison. -/
def landMask (t : Terrain) (cutoff : Int) : Mask :=
  fun i j =>
    if i < t.width ∧ j < t.length then
      if gridAnyB t (fun x z =>
          decide (distSq i j x z ≤ 4) &&
          decide (binaryTransitionMask t (heightBinaryMask t) x z = 1)) = true
      then 1
      else if cutoff < t.height i j then 1 else 0
    else 0

/-- `ObjectHandler._get_water_mask(cutoff_height)`: 1 exactly where
`height < cutoff` (strict), 0 elsewhere; no edge handling. -/
def waterMask (t : Terrain) (cutoff : Int) : Mask :=
  fun i j =>
    if i < t.width ∧ j < t.length ∧ t.height i j < cutoff then 1 else 0

/-- `ObjectHandler._get_coast_mask(cutoff_height, radius)`: discs of `radius`
stamped (value 1) around every transition cell of the binarised terrain,
multiplied by the water mask. -/
def coastMask (t : Terrain) (cutoff : Int) (radius : Nat) : Mask :=
  mulMask
    (fun i j =>
      if i < t.width ∧ j < t.length ∧
          gridAnyB t (fun x z =>
            decide (distSq i j x z ≤ (radius : Int) * (radius : Int)) &&
            decide (binaryTransitionMask t (heightBinaryMask t) x z = 1)) = true
      then 1 else 0)
    (waterMask t cutoff)

/-- Python's `round` on a rational, in integer arithmetic on the reduced
numerator/denominator: with `f = ⌊q⌋` and fractional part `m/den`
(`0 ≤ m < den`), round down when `m/den < 1/2`, up when `> 1/2`, and to the
even neighbour on a tie (banker's rounding). -/
def pyRound (q : ℚ) : Int :=
  let f := q.num.ediv (q.den : Int)
  let m := q.num.emod (q.den : Int)
  if 2 * m < (q.den : Int) then f
  else if (q.den : Int) < 2 * m then f + 1
  else if f % 2 = 0 then f else f + 1

/-- Python's `int(...)` on a rational: truncation toward zero (the reduced
numerator/denominator divided with rounding toward zero). -/
def pyTrunc (q : ℚ) : Int := q.num.tdiv (q.den : Int)

/-- `models.ZoneType`. -/
inductive ZoneType where
  | BASE
  | SCRAP
deriving DecidableEq

/-- `models.ZoneSubType`. -/
inductive ZoneSubType where
  | DESTROYED_BASE
  | OLD_TANK_BATTLE
  | FUEL_TANKS
  | WEAPON_CRATE
  | PUMP_OUTPOST
  | GENERIC_BASE
deriving DecidableEq

/-- `models.ZoneSize` (an `IntEnum`; note the gap: XLARGE = 6, there is no
member with value 5). -/
inductive ZoneSize where
  | TINY
  | SMALL
  | MEDIUM
  | LARGE
  | XLARGE
deriving DecidableEq

/-- The integer value of each `ZoneSize` member. -/
def ZoneSize.val : ZoneSize → Nat
  | .TINY => 1
  | .SMALL => 2
  | .MEDIUM => 3
  | .LARGE => 4
  | .XLARGE => 6

/-- `ZoneSize(v)`: the IntEnum constructor call; `none` models the
`ValueError` raised for a value that is not a member (0, 5, 7, ...). -/
def zoneSizeFromInt (v : Int) : Option ZoneSize :=
  if v = 1 then some .TINY
  else if v = 2 then some .SMALL
  else if v = 3 then some .MEDIUM
  else if v = 4 then some .LARGE
  else if v = 6 then some .XLARGE
  else none

/-- `models.ZONE_SIZE_TO_RADIUS`. -/
def zoneSizeToRadius : ZoneSize → Nat
  | .TINY => 5
  | .SMALL => 8
  | .MEDIUM => 11
  | .LARGE => 16
  | .XLARGE => 19

/-- `models.ZoneMarker` (x, z are written back from the integer grid cell
found by the placement search). -/
structure ZoneMarker where
  x : Nat
  z : Nat
  zoneType : ZoneType
  zoneSize : ZoneSize
  zoneSubType : ZoneSubType
  zoneIndex : Option Int
deriving DecidableEq

/-- `ZoneMarker.radius` property. -/
def ZoneMarker.radius (zm : ZoneMarker) : Nat := zoneSizeToRadius zm.zoneSize

/-- One entry of the OB3 object list, recorded as the arguments handed to
`Ob3File.add_object` (type, LEV-space location, attachment, resolved integer
team). The y-rotation is a float angle (for the carrier it comes from
`np.arctan2`) and is not modelled — no claim refers to it. -/
structure PlacedObject where
  objectType : String
  locX : Int
  locY : Int
  locZ : Int
  team : Int
  attachmentType : String
deriving DecidableEq

/-- The mutable state of `ObjectHandler` (plus the OB3 object list and the
RNG draw counter): the cached object-occupancy mask (all ones at
`__post_init__`), the append-only zone list, the object list. -/
structure GenState where
  mask : Mask
  zones : List ZoneMarker
  objects : List PlacedObject
  rngK : Nat

/-- Static data of a generation run: the terrain and the RNG oracle stream
(the seeded global NumPy generator, a pure function of the seed). -/
structure GenWorld where
  t : Terrain
  stream : Nat → Nat

/-- Python exceptions that the embedded code can raise. -/
inductive PyErr where
  | valueError
  | typeError
  | indexError
deriving DecidableEq

/-- `NoiseGenerator.randint(lo, hi)` = `np.random.randint(lo, hi)`: one draw
from the stream, uniform over `[lo, hi)`; raises `ValueError` when
`hi ≤ lo`. -/
def randint (w : GenWorld) (st : GenState) (lo hi : Nat) :
    Except PyErr (Nat × GenState) :=
  if hi ≤ lo then .error .valueError
  else .ok (lo + w.stream st.rngK % (hi - lo), { st with rngK := st.rngK + 1 })

/-- The `possible_values` list of
`NoiseGenerator.select_random_entry_from_2d_array`: all in-grid cells with
value `> 0`, in row-major order. -/
def posCells (t : Terrain) (arr : Mask) : List (Nat × Nat) :=
  (gridCells t).filter fun p => decide (0 < arr p.1 p.2)

/-- `NoiseGenerator.select_random_entry_from_2d_array`: index the positive
cells with `randint(0, len)`. -/
def selectRandomEntryFrom2dArray (w : GenWorld) (st : GenState) (arr : Mask) :
    Except PyErr ((Nat × Nat) × GenState) :=
  let possible := posCells w.t arr
  match randint w st 0 possible.length with
  | .error e => .error e
  | .ok (idx, st1) =>
    match possible.get? idx with
    | some v => .ok (v, st1)
    | none => .error .indexError

/-- `NoiseGenerator.select_random_from_list`. -/
def selectRandomFromList {α : Type} (w : GenWorld) (st : GenState)
    (l : List α) : Except PyErr (α × GenState) :=
  match randint w st 0 l.length with
  | .error e => .error e
  | .ok (idx, st1) =>
    match l.get? idx with
    | some v => .ok (v, st1)
    | none => .error .indexError

/-- The flat `weighted_keys` list of
`NoiseGenerator.select_random_from_weighted_dict`: each key repeated
`weight` times, in dict insertion order. -/
def weightedKeys {α : Type} (d : List (α × Nat)) : List α :=
  d.flatMap fun kv => List.replicate kv.2 kv.1

/-- `NoiseGenerator.select_random_from_weighted_dict`. -/
def selectRandomFromWeightedDict {α : Type} (w : GenWorld) (st : GenState)
    (d : List (α × Nat)) : Except PyErr (α × GenState) :=
  selectRandomFromList w st (weightedKeys d)

/-- Guarded fold of 0-stamps over a list (shape of the `for zone in
self.zones:` loops and of the cached-mask update sequence): each qualifying
element stamps a 0-disc into the accumulating mask. -/
def stampFold {α : Type} (t : Terrain) (q : α → Bool) (px pz pr : α → Nat)
    (l : List α) (g : Mask) : Mask :=
  l.foldl
    (fun m a =>
      if q a then updateMaskGridWithRadius t m (px a) (pz a) (pr a) 0 else m) g

/-- `ObjectHandler._get_all_zone_mask(exclude_zones)`: all ones, then a
0-disc of each zone's radius, skipping excluded zones. -/
def allZoneMask (t : Terrain) (zones exclude : List ZoneMarker) : Mask :=
  stampFold t (fun e => !(decide (e ∈ exclude))) (fun e => e.x) (fun e => e.z)
    (fun e => e.radius) zones onesMask

/-- `ObjectHandler._get_zone_seperation_mask(extra_zone_spacing)`: all ones,
then a 0-disc of radius `extra_zone_spacing` around every zone centre. -/
def zoneSeperationMask (t : Terrain) (zones : List ZoneMarker)
    (spacing : Nat) : Mask :=
  stampFold t (fun _ => true) (fun e => e.x) (fun e => e.z) (fun _ => spacing)
    zones onesMask

/-- `ObjectHandler.get_inclusion_mask_at_location`: zeros with a 1-disc. -/
def inclusionMaskAtLocation (t : Terrain) (x z radius : Nat) : Mask :=
  updateMaskGridWithRadius t zerosMask x z radius 1

/-- `ObjectHandler._get_zone_mask_for_zone_objects`. -/
def zoneMaskForZoneObjects (t : Terrain) (zm : ZoneMarker) : Mask :=
  inclusionMaskAtLocation t zm.x zm.z zm.radius

/-- `ObjectHandler._update_cached_object_mask`. -/
def updateCachedObjectMask (t : Terrain) (st : GenState) (x z : Nat)
    (requiredRadius : Nat) : GenState :=
  { st with mask := updateMaskGridWithRadius t st.mask x z requiredRadius 0 }

/-- `objects.LocationEnum`. -/
inductive LocationEnum where
  | LAND
  | WATER
  | COAST
deriving DecidableEq

/-- The keyword arguments of `ObjectHandler._find_location`, with the
source's default values (`extra_zone_spacing` defaults to `False`, i.e. 0;
any non-zero value is truthy). -/
structure FindArgs where
  whereLoc : LocationEnum := .LAND
  requiredRadius : ℚ := 1
  considerObjects : Bool := true
  considerZones : Bool := false
  extraZoneSpacing : Nat := 0
  inZone : Option ZoneMarker := none
  extraMasks : Option Mask := none

/-- The mask composed by `_find_location` before erosion: all ones, then
multiplied in source order by the zone-of-interest mask, the surface mask
(water/coast/land, each at its default cutoff), the cached object mask, the
all-zone mask (only when no zone of interest), the zone-separation mask and
the caller's extra mask. -/
def composedMask (w : GenWorld) (st : GenState) (a : FindArgs) : Mask :=
  let m1 := match a.inZone with
    | some zm => mulMask onesMask (zoneMaskForZoneObjects w.t zm)
    | none => onesMask
  let m2 := match a.whereLoc with
    | .WATER => mulMask m1 (waterMask w.t (-20))
    | .COAST => mulMask m1 (coastMask w.t (-20) 50)
    | .LAND => mulMask m1 (landMask w.t (-20))
  let m3 := if a.considerObjects then mulMask m2 st.mask else m2
  let m4 := if a.considerZones ∧ a.inZone = none
    then mulMask m3 (allZoneMask w.t st.zones []) else m3
  let m5 := if a.extraZoneSpacing ≠ 0
    then mulMask m4 (zoneSeperationMask w.t st.zones a.extraZoneSpacing) else m4
  match a.extraMasks with
  | some em => mulMask m5 em
  | none => m5

/-- The erosion loop of `_find_location`: the transition mask of the composed
mask is computed once, then a 0-disc of radius `rr` is stamped at every
transition cell. All stamps write the same value into distinct positions of
the mask (the precomputed transition mask is never touched), so a cell ends
up 0 exactly when some in-grid transition cell covers it, and is otherwise
unchanged. -/
def erodeMask (t : Terrain) (m : Mask) (rr : Nat) : Mask :=
  fun i j =>
    if i < t.width ∧ j < t.length ∧
        gridAnyB t (fun x z =>
          decide (distSq i j x z ≤ (rr : Int) * (rr : Int)) &&
          decide (binaryTransitionMask t m x z = 1)) = true
    then 0 else m i j

/-- `ObjectHandler._find_location`: compose the mask, take the effective
radius `max(1, round(required_radius))`, erode by `required_radius // 2`
around every transition cell, then — if `np.any(mask)` — pick a random
positive cell, else return `None`. -/
def findLocation (w : GenWorld) (st : GenState) (a : FindArgs) :
    Except PyErr (Option (Nat × Nat) × GenState) :=
  let m := composedMask w st a
  let rNat : Nat := (max 1 (pyRound a.requiredRadius)).toNat
  let eroded := erodeMask w.t m (rNat / 2)
  if gridAnyB w.t (fun x z => decide (eroded x z ≠ 0)) = true then
    match selectRandomEntryFrom2dArray w st eroded with
    | .ok (v, st1) => .ok (some v, st1)
    | .error e => .error e
  else .ok (none, st)

/-- `Ob3File.add_object`: append the object and return its 1-indexed id
(`len(self.objects) + 1`). -/
def ob3AddObject (st : GenState) (objectType : String)
    (loc : Int × Int × Int) (attachmentType : String) (team : Int) :
    Nat × GenState :=
  let newId := st.objects.length + 1
  (newId,
    { st with objects := st.objects ++
        [{ objectType := objectType, locX := loc.1, locY := loc.2.1,
           locZ := loc.2.2, team := team, attachmentType := attachmentType }] })

/-- Python truthiness of `if team_override: team = team_override`:
`None` and `0` are falsy, any other integer overrides. -/
def truthyTeamOverride (override : Option Int) (orig : Int) : Int :=
  match override with
  | none => orig
  | some v => if v = 0 then orig else v

/-- `models.ObjectContainer`. -/
structure ObjectContainer where
  objectType : String
  team : Int
  requiredRadius : ℚ
  yOffset : Int := 0
  yRotation : Int := 0
  attachmentType : String := ""
  templateXOffset : Int := 0
  templateZOffset : Int := 0
  templateYOffset : Int := 0
deriving DecidableEq

/-- `ObjectHandler.add_object_on_land_random`: search for a land cell; on
`None` return `None`; if the terrain height plus `y_offset` is negative
return `None`; otherwise stamp the cached object mask with
`int(required_radius)` and append the object (the `y_rotation` argument only
feeds the unmodelled rotation). -/
def addObjectOnLandRandom (w : GenWorld) (st : GenState) (objectType : String)
    (attachmentType : String) (team : Int) (yOffset : Int)
    (requiredRadius : ℚ) (considerZones : Bool)
    (inZone : Option ZoneMarker) : Except PyErr (Option Nat × GenState) :=
  match findLocation w st
      { requiredRadius := requiredRadius,
        considerZones := considerZones, inZone := inZone } with
  | .error e => .error e
  | .ok (none, st1) => .ok (none, st1)
  | .ok (some (x, z), st1) =>
    let height := w.t.height x z
    if height + yOffset < 0 then .ok (none, st1)
    else
      let st2 := updateCachedObjectMask w.t st1 x z (pyTrunc requiredRadius).toNat
      let r := ob3AddObject st2 objectType
        ((x : Int), height + yOffset, (z : Int)) attachmentType team
      .ok (some r.1, r.2)

/-- The location of template member `o` relative to an anchor placed at
(x, z) with terrain height `h` and anchor y-offset `refYOff`
(`[x + dx, height + ref_y_offset + dy, z + dz]`). -/
def templateMemberObject (x z : Nat) (h refYOff : Int)
    (teamOverride : Option Int) (o : ObjectContainer) : PlacedObject :=
  { objectType := o.objectType,
    locX := (x : Int) + o.templateXOffset,
    locY := h + refYOff + o.templateYOffset,
    locZ := (z : Int) + o.templateZOffset,
    team := truthyTeamOverride teamOverride o.team,
    attachmentType := o.attachmentType }

/-- `ObjectHandler.add_object_template_on_land_random`: one search for the
reference object (element 0); on `None`, or when the height plus the
reference's `y_offset` is negative, nothing at all is placed; otherwise the
cached mask is stamped with `int(ref.required_radius)`, the anchor is added,
and every remaining member is added at its fixed template offset with no
further search. An empty template raises `IndexError`
(`object_template[0]`). -/
def addObjectTemplateOnLandRandom (w : GenWorld) (st : GenState)
    (template : List ObjectContainer) (considerZones : Bool)
    (inZone : Option ZoneMarker) (extraMasks : Option Mask)
    (teamOverride : Option Int) : Except PyErr GenState :=
  match template with
  | [] => .error .indexError
  | ref :: rest =>
    match findLocation w st
        { requiredRadius := ref.requiredRadius,
          considerZones := considerZones, inZone := inZone,
          extraMasks := extraMasks } with
    | .error e => .error e
    | .ok (none, st1) => .ok st1
    | .ok (some (x, z), st1) =>
      let height := w.t.height x z
      if height + ref.yOffset < 0 then .ok st1
      else
        let st2 := updateCachedObjectMask w.t st1 x z (pyTrunc ref.requiredRadius).toNat
        let st3 := (ob3AddObject st2 ref.objectType
          ((x : Int), height + ref.yOffset, (z : Int)) ref.attachmentType
          (truthyTeamOverride teamOverride ref.team)).2
        let st4 := rest.foldl
          (fun s o =>
            (ob3AddObject s o.objectType
              ((x : Int) + o.templateXOffset,
                height + ref.yOffset + o.templateYOffset,
                (z : Int) + o.templateZOffset)
              o.attachmentType (truthyTeamOverride teamOverride o.team)).2)
          st3
        .ok st4

/-- One iteration of the `while current_size >= ZoneSize.TINY` loop body of
`ObjectHandler.add_zone`: build the marker at the current size, search for a
land location considering zones and the separation buffer, and on success
append the zone. -/
def tryPlaceZone (w : GenWorld) (st : GenState) (zoneType : ZoneType)
    (currentSize : ZoneSize) (zoneSubType : ZoneSubType)
    (zoneIndex : Option Int) (extraMasks : Option Mask)
    (extraZoneSpacing : Nat) : Except PyErr (Option ZoneMarker × GenState) :=
  match findLocation w st
      { whereLoc := .LAND,
        requiredRadius := (zoneSizeToRadius currentSize : ℚ),
        considerObjects := false, considerZones := true,
        extraZoneSpacing := extraZoneSpacing, extraMasks := extraMasks } with
  | .error e => .error e
  | .ok (none, st1) => .ok (none, st1)
  | .ok (some (x, z), st1) =>
    let nz : ZoneMarker :=
      { x := x, z := z, zoneType := zoneType, zoneSize := currentSize,
        zoneSubType := zoneSubType, zoneIndex := zoneIndex }
    .ok (some nz, { st1 with zones := st1.zones ++ [nz] })

/-- `add_zone` loop, entered at TINY: TINY is not greater than TINY, so a
failed search breaks out of the loop and returns `None`. -/
def addZoneFromTiny (w : GenWorld) (st : GenState) (zoneType : ZoneType)
    (zoneSubType : ZoneSubType) (zoneIndex : Option Int)
    (extraMasks : Option Mask) (extraZoneSpacing : Nat) :
    Except PyErr (Option ZoneMarker × GenState) :=
  match tryPlaceZone w st zoneType .TINY zoneSubType zoneIndex extraMasks
      extraZoneSpacing with
  | .error e => .error e
  | .ok (some z, st1) => .ok (some z, st1)
  | .ok (none, st1) => .ok (none, st1)

/-- `add_zone` loop, entered at SMALL: a failed search degrades to
`ZoneSize(2 - 1) = TINY`. -/
def addZoneFromSmall (w : GenWorld) (st : GenState) (zoneType : ZoneType)
    (zoneSubType : ZoneSubType) (zoneIndex : Option Int)
    (extraMasks : Option Mask) (extraZoneSpacing : Nat) :
    Except PyErr (Option ZoneMarker × GenState) :=
  match tryPlaceZone w st zoneType .SMALL zoneSubType zoneIndex extraMasks
      extraZoneSpacing with
  | .error e => .error e
  | .ok (some z, st1) => .ok (some z, st1)
  | .ok (none, st1) =>
    match zoneSizeFromInt ((ZoneSize.SMALL.val : Int) - 1) with
    | some _ =>
      addZoneFromTiny w st1 zoneType zoneSubType zoneIndex extraMasks
        extraZoneSpacing
    | none => .error .valueError

/-- `add_zone` loop, entered at MEDIUM: degrades to `ZoneSize(3 - 1) =
SMALL`. -/
def addZoneFromMedium (w : GenWorld) (st : GenState) (zoneType : ZoneType)
    (zoneSubType : ZoneSubType) (zoneIndex : Option Int)
    (extraMasks : Option Mask) (extraZoneSpacing : Nat) :
    Except PyErr (Option ZoneMarker × GenState) :=
  match tryPlaceZone w st zoneType .MEDIUM zoneSubType zoneIndex extraMasks
      extraZoneSpacing with
  | .error e => .error e
  | .ok (some z, st1) => .ok (some z, st1)
  | .ok (none, st1) =>
    match zoneSizeFromInt ((ZoneSize.MEDIUM.val : Int) - 1) with
    | some _ =>
      addZoneFromSmall w st1 zoneType zoneSubType zoneIndex extraMasks
        extraZoneSpacing
    | none => .error .valueError

/-- `add_zone` loop, entered at LARGE: degrades to `ZoneSize(4 - 1) =
MEDIUM`. -/
def addZoneFromLarge (w : GenWorld) (st : GenState) (zoneType : ZoneType)
    (zoneSubType : ZoneSubType) (zoneIndex : Option Int)
    (extraMasks : Option Mask) (extraZoneSpacing : Nat) :
    Except PyErr (Option ZoneMarker × GenState) :=
  match tryPlaceZone w st zoneType .LARGE zoneSubType zoneIndex extraMasks
      extraZoneSpacing with
  | .error e => .error e
  | .ok (some z, st1) => .ok (some z, st1)
  | .ok (none, st1) =>
    match zoneSizeFromInt ((ZoneSize.LARGE.val : Int) - 1) with
    | some _ =>
      addZoneFromMedium w st1 zoneType zoneSubType zoneIndex extraMasks
        extraZoneSpacing
    | none => .error .valueError

/-- `add_zone` loop, entered at XLARGE: a failed search evaluates
`ZoneSize(6 - 1)`, and 5 is not a `ZoneSize` member, so the IntEnum call
raises `ValueError`. (The `some` branch cannot be taken —
`zoneSizeFromInt 5 = none`; it is written as a fall-through to the LARGE
stage only so the match is total.) -/
def addZoneFromXlarge (w : GenWorld) (st : GenState) (zoneType : ZoneType)
    (zoneSubType : ZoneSubType) (zoneIndex : Option Int)
    (extraMasks : Option Mask) (extraZoneSpacing : Nat) :
    Except PyErr (Option ZoneMarker × GenState) :=
  match tryPlaceZone w st zoneType .XLARGE zoneSubType zoneIndex extraMasks
      extraZoneSpacing with
  | .error e => .error e
  | .ok (some z, st1) => .ok (some z, st1)
  | .ok (none, st1) =>
    match zoneSizeFromInt ((ZoneSize.XLARGE.val : Int) - 1) with
    | some _ =>
      addZoneFromLarge w st1 zoneType zoneSubType zoneIndex extraMasks
        extraZoneSpacing
    | none => .error .valueError

/-- `ObjectHandler.add_zone(zone_type, zone_size, zone_subtype, zone_index,
extra_masks, extra_zone_spacing=40)`: try the requested size, degrading on
failure as the loop dictates. -/
def addZone (w : GenWorld) (st : GenState) (zoneType : ZoneType)
    (zoneSize : ZoneSize) (zoneSubType : ZoneSubType)
    (zoneIndex : Option Int := none) (extraMasks : Option Mask := none)
    (extraZoneSpacing : Nat := 40) :
    Except PyErr (Option ZoneMarker × GenState) :=
  match zoneSize with
  | .TINY =>
    addZoneFromTiny w st zoneType zoneSubType zoneIndex extraMasks
      extraZoneSpacing
  | .SMALL =>
    addZoneFromSmall w st zoneType zoneSubType zoneIndex extraMasks
      extraZoneSpacing
  | .MEDIUM =>
    addZoneFromMedium w st zoneType zoneSubType zoneIndex extraMasks
      extraZoneSpacing
  | .LARGE =>
    addZoneFromLarge w st zoneType zoneSubType zoneIndex extraMasks
      extraZoneSpacing
  | .XLARGE =>
    addZoneFromXlarge w st zoneType zoneSubType zoneIndex extraMasks
      extraZoneSpacing

/-- `ObjectHandler.add_carrier_and_return_mask(required_radius=30,
mask_radius=60)`: coast search; the result is unpacked immediately
(`x, z = self._find_location(...)`), so a `None` result raises `TypeError`.
On success: stamp the cached mask, add the Carrier and the dedicatedlifter
(team PLAYER = 0), and return the ring mask (1 inside `mask_radius`, 0
inside `required_radius`). -/
def addCarrierAndReturnMask (w : GenWorld) (st : GenState)
    (requiredRadius : Nat := 30) (maskRadius : Nat := 60) :
    Except PyErr (Mask × GenState) :=
  match findLocation w st
      { whereLoc := .COAST, requiredRadius := (requiredRadius : ℚ) } with
  | .error e => .error e
  | .ok (none, _) => .error .typeError
  | .ok (some (x, z), st1) =>
    let st2 := updateCachedObjectMask w.t st1 x z requiredRadius
    let st3 := (ob3AddObject st2 "Carrier" ((x : Int), 10, (z : Int)) "" 0).2
    let st4 :=
      (ob3AddObject st3 "dedicatedlifter" ((x : Int), 25, (z : Int)) "" 0).2
    let mask : Mask := fun i j =>
      if i < w.t.width ∧ j < w.t.length then
        if distSq i j x z ≤ (requiredRadius : Int) * (requiredRadius : Int) then 0
        else if distSq i j x z ≤ (maskRadius : Int) * (maskRadius : Int) then 1
        else 0
      else 0
    .ok (mask, st4)

/-- `zones.ZONE_SUBTYPE_WEIGHTS`, in dict insertion order. -/
def ZONE_SUBTYPE_WEIGHTS : ZoneType → List (ZoneSubType × Nat)
  | .BASE => [(.GENERIC_BASE, 1)]
  | .SCRAP =>
    [(.DESTROYED_BASE, 1), (.OLD_TANK_BATTLE, 1), (.WEAPON_CRATE, 1),
      (.FUEL_TANKS, 1)]

/-- `zones.ALLOWED_ZONE_SIZE_WEIGHTS`, in dict insertion order. Pairs that
are absent from the Python dict give `[]` here (looking them up in Python
would raise `KeyError`; no modelled code path reaches them). -/
def ALLOWED_ZONE_SIZE_WEIGHTS : ZoneType → ZoneSubType → List (ZoneSize × Nat)
  | .BASE, .PUMP_OUTPOST => [(.TINY, 3), (.SMALL, 2)]
  | .BASE, .GENERIC_BASE =>
    [(.SMALL, 3), (.MEDIUM, 4), (.LARGE, 2), (.XLARGE, 1)]
  | .SCRAP, .DESTROYED_BASE => [(.TINY, 1), (.SMALL, 3)]
  | .SCRAP, .OLD_TANK_BATTLE => [(.TINY, 1)]
  | .SCRAP, .WEAPON_CRATE => [(.TINY, 1)]
  | .SCRAP, .FUEL_TANKS => [(.TINY, 3), (.SMALL, 1)]
  | _, _ => []

/-- Initial value of the module-level mutable `zones.ALLOWED_MAX_SUBTYPE_ZONES`
(pairs absent from the Python dict give 0; they are never iterated because
the subtype loop runs over `ZONE_SUBTYPE_WEIGHTS[zone_type]`). -/
def initialAllowedMaxSubtypeZones : ZoneType → ZoneSubType → Int
  | .BASE, .GENERIC_BASE => 999
  | .SCRAP, .DESTROYED_BASE => 999
  | .SCRAP, .OLD_TANK_BATTLE => 999
  | .SCRAP, .WEAPON_CRATE => 1
  | .SCRAP, .FUEL_TANKS => 999
  | _, _ => 0

/-- `ALLOWED_MAX_SUBTYPE_ZONES[zone_type][zone_subtype] -= 1`. -/
def decrementQuota (quota : ZoneType → ZoneSubType → Int) (zt : ZoneType)
    (sub : ZoneSubType) : ZoneType → ZoneSubType → Int :=
  fun zt1 sub1 => if zt1 = zt ∧ sub1 = sub then quota zt sub - 1
    else quota zt1 sub1

/-- `zones.PUMP_ZONES_PER_BASE_ZONE`. -/
def PUMP_ZONES_PER_BASE_ZONE : ZoneSize → List ZoneSize
  | .TINY => [.TINY]
  | .SMALL => [.TINY]
  | .MEDIUM => [.SMALL]
  | .LARGE => [.SMALL, .TINY]
  | .XLARGE => [.SMALL, .SMALL]

/-- One planned zone: `(zone_type, zone_size, zone_subtype, use_this_index)`
as appended to `_zones_to_place`. -/
abbrev PlannedZone := ZoneType × ZoneSize × ZoneSubType × Option Int

/-- The loop state of `ZoneManager.generate_random_zones` while building
`_zones_to_place`: the list so far, the module-level quota table, the
`zone_size` parameter (which the loop overwrites when it samples a size),
`self.last_used_index`, and the RNG state. -/
structure PlanState where
  plan : List PlannedZone
  quota : ZoneType → ZoneSubType → Int
  zoneSizeArg : Option ZoneSize
  lastUsedIndex : Int
  gs : GenState

/-- The `for _ in range(n_zones)` loop of `generate_random_zones` (zone
selection only; the subsequent sorting and placement of `_zones_to_place`
are not needed by any claim). Each iteration: for BASE, bump and use
`last_used_index`; weighted-sample a subtype among those with positive
quota; decrement its quota; for the size, sample from the subtype's size
table only when the (mutable) `zone_size` argument is still `None`, storing
the sample back into that argument; queue the zone, plus the linked pump
zones for BASE. -/
def generateRandomZonesPlanLoop (w : GenWorld) (zt : ZoneType) :
    Nat → PlanState → Except PyErr PlanState
  | 0, ps => .ok ps
  | n + 1, ps =>
    let idxPair : Option Int × Int :=
      match zt with
      | .BASE => (some (ps.lastUsedIndex + 1), ps.lastUsedIndex + 1)
      | .SCRAP => (none, ps.lastUsedIndex)
    let possible := (ZONE_SUBTYPE_WEIGHTS zt).filter
      fun kv => decide (0 < ps.quota zt kv.1)
    match selectRandomFromWeightedDict w ps.gs possible with
    | .error e => .error e
    | .ok (sub, gs1) =>
      let quota1 := decrementQuota ps.quota zt sub
      match
        (match ps.zoneSizeArg with
         | none =>
           selectRandomFromWeightedDict w gs1
             (ALLOWED_ZONE_SIZE_WEIGHTS zt sub)
         | some s => .ok (s, gs1)) with
      | .error e => .error e
      | .ok (size, gs2) =>
        let newEntries : List PlannedZone :=
          (zt, size, sub, idxPair.1) ::
            (match zt with
             | .BASE =>
               (PUMP_ZONES_PER_BASE_ZONE size).map
                 fun ps2 => (zt, ps2, ZoneSubType.PUMP_OUTPOST, idxPair.1)
             | .SCRAP => [])
        generateRandomZonesPlanLoop w zt n
          { plan := ps.plan ++ newEntries, quota := quota1,
            zoneSizeArg := some size, lastUsedIndex := idxPair.2, gs := gs2 }

/-- Entry point for the selection loop of
`ZoneManager.generate_random_zones(n_zones, zone_type, zone_size=None)`. -/
def generateRandomZonesPlan (w : GenWorld) (gs : GenState)
    (quota : ZoneType → ZoneSubType → Int) (lastUsedIndex : Int)
    (nZones : Nat) (zt : ZoneType) (zoneSize : Option ZoneSize) :
    Except PyErr PlanState :=
  generateRandomZonesPlanLoop w zt nZones
    { plan := [], quota := quota, zoneSizeArg := zoneSize,
      lastUsedIndex := lastUsedIndex, gs := gs }

/-- `ZoneManager.add_tiny_scrap_near_carrier_and_calc_rally`: weighted-pick
a scrap subtype, decrement its quota, add a TINY scrap zone constrained to
the carrier mask (returning `None` silently if that fails), then search a
radius-15 ring around `self.object_handler.zones[0]` for a rally point —
the result of that search is unpacked immediately
(`x, z = ..._find_location(...)`), so a `None` result raises `TypeError`. -/
def addTinyScrapNearCarrierAndCalcRally (w : GenWorld) (st : GenState)
    (quota : ZoneType → ZoneSubType → Int) (carrierMask : Mask) :
    Except PyErr (Option (Nat × Nat) × GenState ×
      (ZoneType → ZoneSubType → Int)) :=
  match selectRandomFromWeightedDict w st (ZONE_SUBTYPE_WEIGHTS .SCRAP) with
  | .error e => .error e
  | .ok (sub, st1) =>
    let quota1 := decrementQuota quota .SCRAP sub
    match addZone w st1 .SCRAP .TINY sub none (some carrierMask) with
    | .error e => .error e
    | .ok (none, st2) => .ok (none, st2, quota1)
    | .ok (some _, st2) =>
      match st2.zones with
      | [] => .error .indexError
      | z0 :: _ =>
        let nearby := updateMaskGridWithRadius w.t zerosMask z0.x z0.z 15 1
        match findLocation w st2
            { requiredRadius := 4, considerZones := true,
              extraMasks := some nearby } with
        | .error e => .error e
        | .ok (none, _) => .error .typeError
        | .ok (some (x, z), st3) => .ok (some (x, z), st3, quota1)

/-- Modelled from the spec: the seeded NumPy/python global random generator
(`np.random.seed(seed)` in `NoiseGenerator.__post_init__`; the Mersenne
Twister itself is library code outside this repository). Per §2/§5 of the
spec it is a deterministic stream that is a pure function of the seed; the
concrete mixing function below stands in for it. -/
def mtStream (seed : Nat) : Nat → Nat :=
  fun n => (seed * 1103515245 + n * 2531011 + 12345) % 2147483648

/-- Modelled from the spec: the fractal noise field driving
`set_terrain_from_noise` (`perlin_numpy.generate_fractal_noise_2d`, library
code outside this repository). Per §2 of the spec it is a pure function of
the seed; the concrete heights below stand in for it. -/
def specNoiseHeight (seed : Nat) (width length : Nat) (x z : Nat) : Int :=
  ((mtStream seed (x * length + z + width) % 300 : Nat) : Int) - 150

/-- One call of a generation run driven by the top-level script
(`generate.py`): shape the terrain from noise, add a zone, or add an
object. -/
inductive GenCall where
  | genTerrain
  | addZoneCall (zt : ZoneType) (zs : ZoneSize) (sub : ZoneSubType)
  | addObjectCall (objectType : String) (requiredRadius : ℚ) (yOffset : Int)

/-- Execute one `GenCall` against the current terrain and handler state,
drawing randomness from the single stream seeded at run start. -/
def runGenCall (seed : Nat) (acc : Terrain × GenState) (c : GenCall) :
    Except PyErr (Terrain × GenState) :=
  match c with
  | .genTerrain =>
    let t := acc.1
    .ok ({ t with height := specNoiseHeight seed t.width t.length }, acc.2)
  | .addZoneCall zt zs sub =>
    match addZone { t := acc.1, stream := mtStream seed } acc.2 zt zs sub with
    | .error e => .error e
    | .ok (_, st1) => .ok (acc.1, st1)
  | .addObjectCall objectType requiredRadius yOffset =>
    match addObjectOnLandRandom { t := acc.1, stream := mtStream seed } acc.2
        objectType "" 1 yOffset requiredRadius false none with
    | .error e => .error e
    | .ok (_, st1) => .ok (acc.1, st1)

/-- A complete generation run: a fresh seeded generator, a fresh handler
state (cached mask all ones, no zones, no objects), and the given call
sequence executed in order; any raised exception aborts the run. -/
def runGeneration (seed : Nat) (width length : Nat) (calls : List GenCall) :
    Except PyErr (Terrain × GenState) :=
  calls.foldl
    (fun acc c =>
      match acc with
      | .error e => .error e
      | .ok pair => runGenCall seed pair c)
    (.ok ({ width := width, length := length, height := fun _ _ => 0 },
      { mask := onesMask, zones := [], objects := [], rngK := 0 }))

/-- The state of a fresh `ObjectHandler` right after `__post_init__`:
cached object mask all ones, no zones, no objects, no draws yet. -/
def initialGenState : GenState :=
  { mask := onesMask, zones := [], objects := [], rngK := 0 }

/-- `ObjectHandler._update_cached_object_mask` applied to a sequence of
successful placements `(x, z, required_radius)`, in order. -/
def applyCachedUpdates (t : Terrain) (st : GenState)
    (ps : List (Nat × Nat × Nat)) : GenState :=
  ps.foldl (fun s p => updateCachedObjectMask t s p.1 p.2.1 p.2.2) st

/-- A mask whose in-grid values are all 0 or 1 (the spec's boolean
occupancy grids; numpy stores them as 0.0/1.0 floats). -/
def binaryMask (m : Mask) : Prop := ∀ i j, m i j = 0 ∨ m i j = 1

/-- The spec's zone non-overlap property for one pair of placed zones:
Euclidean distance between centres at least
`radius_a + radius_b + zone_separation_margin` (stated on squares, which is
equivalent for non-negative quantities). -/
def zonePairSeparationClaim (margin : Nat) (a b : ZoneMarker) : Prop :=
  ((a.radius + b.radius + margin : Nat) : Int) *
      ((a.radius + b.radius + margin : Nat) : Int) ≤ distSq a.x a.z b.x b.z

/-- 4×4 terrain entirely under water (height −100 everywhere). -/
def allWaterTerrain : Terrain :=
  { width := 4, length := 4, height := fun _ _ => -100 }

/-- World for the `add_zone` XLARGE degradation run: all-water terrain, so
every location search fails, with the identity oracle stream. -/
def allWaterWorld : GenWorld := { t := allWaterTerrain, stream := fun n => n }

/-- 47×1 strip of flat land (height 100 everywhere). -/
def flatStripTerrain : Terrain :=
  { width := 47, length := 1, height := fun _ _ => 100 }

/-- World for the zone-separation run: flat 47×1 land strip; the oracle
stream returns the draw index itself (draw 0 ↦ 0, draw 1 ↦ 1, ...). -/
def flatStripWorld : GenWorld :=
  { t := flatStripTerrain, stream := fun n => n }

/-- First `add_zone(SCRAP, TINY, FUEL_TANKS)` call on the strip world. -/
def sepRun1 : Except PyErr (Option ZoneMarker × GenState) :=
  addZone flatStripWorld initialGenState .SCRAP .TINY .FUEL_TANKS

/-- Handler state after the first zone placement. -/
def sepState1 : GenState :=
  match sepRun1 with
  | .ok (_, st) => st
  | .error _ => initialGenState

/-- Second `add_zone(SCRAP, TINY, FUEL_TANKS)` call, on the state left by
the first. -/
def sepRun2 : Except PyErr (Option ZoneMarker × GenState) :=
  addZone flatStripWorld sepState1 .SCRAP .TINY .FUEL_TANKS

/-- Handler state after the second zone placement. -/
def sepState2 : GenState :=
  match sepRun2 with
  | .ok (_, st) => st
  | .error _ => initialGenState

/-- The zone the second separation run returns. -/
def sepZone2 : ZoneMarker :=
  match sepRun2 with
  | .ok (some z, _) => z
  | _ => { x := 0, z := 0, zoneType := .SCRAP, zoneSize := .TINY,
           zoneSubType := .FUEL_TANKS, zoneIndex := none }

/-- 2×2 flat land terrain (height 100). -/
def flatTwoTerrain : Terrain :=
  { width := 2, length := 2, height := fun _ _ => 100 }

/-- Small flat-land world with the identity oracle stream. -/
def flatTwoWorld : GenWorld := { t := flatTwoTerrain, stream := fun n => n }

/-- 4×4 flat land terrain (height 100): no water anywhere, so the coast
mask is empty. -/
def flatFourWorld : GenWorld :=
  { t := { width := 4, length := 4, height := fun _ _ => 100 },
    stream := fun n => n }

/-- 6×6 flat land world used for the rally-point search run. -/
def flatSixWorld : GenWorld :=
  { t := { width := 6, length := 6, height := fun _ _ => 100 },
    stream := fun n => n }

/-- The 3×3 height map used by `tests/test_objects.py` for
`_get_land_mask` / `_get_water_mask`. -/
def testHeightTerrain : Terrain :=
  { width := 3, length := 3,
    height := fun i j =>
      match i, j with
      | 0, 0 => -30 | 0, 1 => -10 | 0, 2 => 0
      | 1, 0 => -20 | 1, 1 => 10 | 1, 2 => 20
      | 2, 0 => 0 | 2, 1 => 30 | 2, 2 => 40
      | _, _ => 0 }

/-- Trivial 1×1 world for the zone-selection loop (which never reads the
terrain), with the identity oracle stream. -/
def unitWorld : GenWorld :=
  { t := { width := 1, length := 1, height := fun _ _ => 0 },
    stream := fun n => n }

/-- `generate_random_zones(n_zones=2, ZoneType.SCRAP)` selection loop on a
fresh quota table with the identity oracle stream. -/
def scrapPlanRun : Except PyErr PlanState :=
  generateRandomZonesPlan unitWorld initialGenState
    initialAllowedMaxSubtypeZones 1 2 .SCRAP none

/-- The `_zones_to_place` list built by `scrapPlanRun`. -/
def scrapPlanList : List PlannedZone :=
  match scrapPlanRun with
  | .ok ps => ps.plan
  | .error _ => []

/-- RNG draws consumed by `scrapPlanRun`. -/
def scrapPlanDraws : Nat :=
  match scrapPlanRun with
  | .ok ps => ps.gs.rngK
  | .error _ => 0

/-- A one-element object template whose anchor sits 200 below the terrain
(used to trigger the height/water rejection on flat land of height 100). -/
def sunkenRef : ObjectContainer :=
  { objectType := "alienpumptower", team := 1, requiredRadius := 2,
    yOffset := -200 }

/-- A template member at a fixed offset from the anchor. -/
def offsetMember : ObjectContainer :=
  { objectType := "alienbarracks", team := 1, requiredRadius := 1,
    templateXOffset := 3, templateZOffset := 2, templateYOffset := 1 }

/-! ### Helper lemmas -/

theorem gridAnyB_eq_true_iff (t : Terrain) (p : Nat → Nat → Bool) :
    gridAnyB t p = true ↔
      ∃ x, x < t.width ∧ ∃ z, z < t.length ∧ p x z = true := by
  unfold gridAnyB
  simp [List.any_eq_true, List.mem_range]

theorem mem_gridCells (t : Terrain) (p : Nat × Nat) :
    p ∈ gridCells t ↔ p.1 < t.width ∧ p.2 < t.length := by
  obtain ⟨a, b⟩ := p
  unfold gridCells
  simp only [List.mem_flatMap, List.mem_map, List.mem_range, Prod.mk.injEq]
  constructor
  · rintro ⟨x, hx, z, hz, rfl, rfl⟩
    exact ⟨hx, hz⟩
  · rintro ⟨hx, hz⟩
    exact ⟨a, hx, b, hz, rfl, rfl⟩

theorem mem_posCells (t : Terrain) (arr : Mask) (p : Nat × Nat) :
    p ∈ posCells t arr ↔
      (p.1 < t.width ∧ p.2 < t.length) ∧ 0 < arr p.1 p.2 := by
  unfold posCells
  rw [List.mem_filter]
  simp [mem_gridCells]

theorem stampFold_cons {α : Type} (t : Terrain) (q : α → Bool)
    (px pz pr : α → Nat) (hd : α) (tl : List α) (g : Mask) :
    stampFold t q px pz pr (hd :: tl) g =
      stampFold t q px pz pr tl
        (if q hd then updateMaskGridWithRadius t g (px hd) (pz hd) (pr hd) 0
         else g) := rfl

theorem stampFold_apply {α : Type} (t : Terrain) (q : α → Bool)
    (px pz pr : α → Nat) (l : List α) (g : Mask) (i j : Nat) :
    stampFold t q px pz pr l g i j =
      if ∃ a ∈ l, q a = true ∧ i < t.width ∧ j < t.length ∧
          distSq i j (px a) (pz a) ≤ (pr a : Int) * (pr a : Int)
      then 0 else g i j := by
  induction l generalizing g with
  | nil => simp [stampFold]
  | cons hd tl ih =>
    rw [stampFold_cons, ih]
    by_cases htl : ∃ a ∈ tl, q a = true ∧ i < t.width ∧ j < t.length ∧
        distSq i j (px a) (pz a) ≤ (pr a : Int) * (pr a : Int)
    · rw [if_pos htl]
      obtain ⟨a, ha, hrest⟩ := htl
      rw [if_pos ⟨a, List.mem_cons_of_mem hd ha, hrest⟩]
    · rw [if_neg htl]
      by_cases hq : q hd = true
      · rw [if_pos hq]
        unfold updateMaskGridWithRadius
        by_cases hcov : i < t.width ∧ j < t.length ∧
            distSq i j (px hd) (pz hd) ≤ (pr hd : Int) * (pr hd : Int)
        · rw [if_pos hcov, if_pos ⟨hd, List.mem_cons_self hd tl, hq, hcov⟩]
        · rw [if_neg hcov, if_neg]
          rintro ⟨a, ha, hqa, hrest⟩
          rcases List.mem_cons.mp ha with rfl | ha2
          · exact hcov hrest
          · exact htl ⟨a, ha2, hqa, hrest⟩
      · rw [if_neg hq, if_neg]
        rintro ⟨a, ha, hqa, hrest⟩
        rcases List.mem_cons.mp ha with rfl | ha2
        · exact hq hqa
        · exact htl ⟨a, ha2, hqa, hrest⟩

theorem binaryMask_onesMask : binaryMask onesMask := by
  intro i j; right; rfl

theorem binaryMask_mulMask {a b : Mask} (ha : binaryMask a)
    (hb : binaryMask b) : binaryMask (mulMask a b) := by
  intro i j
  unfold mulMask
  rcases ha i j with h1 | h1 <;> rcases hb i j with h2 | h2 <;>
    simp [h1, h2]

theorem binaryMask_landMask (t : Terrain) (c : Int) :
    binaryMask (landMask t c) := by
  intro i j
  unfold landMask
  split_ifs <;> simp

theorem binaryMask_waterMask (t : Terrain) (c : Int) :
    binaryMask (waterMask t c) := by
  intro i j
  unfold waterMask
  split_ifs <;> simp

theorem binaryMask_coastMask (t : Terrain) (c : Int) (r : Nat) :
    binaryMask (coastMask t c r) := by
  refine binaryMask_mulMask ?_ (binaryMask_waterMask t c)
  intro i j
  dsimp only
  split_ifs <;> simp

theorem binaryMask_stampFold_ones {α : Type} (t : Terrain) (q : α → Bool)
    (px pz pr : α → Nat) (l : List α) :
    binaryMask (stampFold t q px pz pr l onesMask) := by
  intro i j
  rw [stampFold_apply]
  split_ifs <;> simp [onesMask]

theorem binaryMask_allZoneMask (t : Terrain) (zones exclude : List ZoneMarker) :
    binaryMask (allZoneMask t zones exclude) :=
  binaryMask_stampFold_ones t _ _ _ _ zones

theorem binaryMask_zoneSeperationMask (t : Terrain) (zones : List ZoneMarker)
    (spacing : Nat) : binaryMask (zoneSeperationMask t zones spacing) :=
  binaryMask_stampFold_ones t _ _ _ _ zones

theorem binaryMask_inclusionMaskAtLocation (t : Terrain) (x z r : Nat) :
    binaryMask (inclusionMaskAtLocation t x z r) := by
  intro i j
  unfold inclusionMaskAtLocation updateMaskGridWithRadius zerosMask
  split_ifs <;> simp

theorem binaryMask_erodeMask (t : Terrain) {m : Mask} (hm : binaryMask m)
    (rr : Nat) : binaryMask (erodeMask t m rr) := by
  intro i j
  unfold erodeMask
  split_ifs with h
  · left; rfl
  · exact hm i j

theorem selectRandom_ok {w : GenWorld} {st : GenState} {arr : Mask}
    {u : Nat × Nat} {st2 : GenState}
    (h : selectRandomEntryFrom2dArray w st arr = .ok (u, st2)) :
    u ∈ posCells w.t arr ∧ st2 = { st with rngK := st.rngK + 1 } ∧
      (posCells w.t arr).get?
        (w.stream st.rngK % (posCells w.t arr).length) = some u := by
  simp only [selectRandomEntryFrom2dArray, randint] at h
  split at h
  next e heq => exact Except.noConfusion h
  next idx st1 heq =>
    split at heq
    · exact Except.noConfusion heq
    · injection heq with heq1
      injection heq1 with hidx hst1
      subst hidx; subst hst1
      split at h
      next val hget =>
        injection h with h1
        injection h1 with h2 h3
        subst h2; subst h3
        simp only [Nat.sub_zero, Nat.zero_add] at hget
        exact ⟨List.get?_mem hget, rfl, hget⟩
      next hget => exact Except.noConfusion h

theorem selectRandom_error {w : GenWorld} {st : GenState} {arr : Mask}
    {e : PyErr} (h : selectRandomEntryFrom2dArray w st arr = .error e)
    (hne : (posCells w.t arr).length ≠ 0) : False := by
  simp only [selectRandomEntryFrom2dArray, randint] at h
  split at h
  next e2 heq =>
    rw [if_neg (by omega)] at heq
    exact Except.noConfusion heq
  next idx st1 heq =>
    split at heq
    · exact Except.noConfusion heq
    · injection heq with heq1
      injection heq1 with hidx hst1
      subst hidx
      split at h
      next val hget => exact Except.noConfusion h
      next hget =>
        simp only [Nat.sub_zero, Nat.zero_add] at hget
        have hlt : w.stream st.rngK % (posCells w.t arr).length <
            (posCells w.t arr).length :=
          Nat.mod_lt _ (Nat.pos_of_ne_zero hne)
        rw [List.get?_eq_get hlt] at hget
        exact Option.noConfusion hget

theorem findLocation_ok_none {w : GenWorld} {st : GenState} {a : FindArgs}
    {st1 : GenState} (h : findLocation w st a = .ok (none, st1)) :
    st1 = st := by
  simp only [findLocation] at h
  split at h
  · split at h
    · simp at h
    · simp at h
  · injection h with h1
    injection h1 with _ h2
    exact h2.symm

theorem findLocation_ok_some {w : GenWorld} {st : GenState} {a : FindArgs}
    {v : Nat × Nat} {st1 : GenState}
    (h : findLocation w st a = .ok (some v, st1)) :
    v ∈ posCells w.t (erodeMask w.t (composedMask w st a)
        ((max 1 (pyRound a.requiredRadius)).toNat / 2)) ∧
      st1 = { st with rngK := st.rngK + 1 } ∧
      (posCells w.t (erodeMask w.t (composedMask w st a)
          ((max 1 (pyRound a.requiredRadius)).toNat / 2))).get?
        (w.stream st.rngK %
          (posCells w.t (erodeMask w.t (composedMask w st a)
            ((max 1 (pyRound a.requiredRadius)).toNat / 2))).length) =
        some v := by
  simp only [findLocation] at h
  split at h
  · split at h
    case h_1 u st2 hsel =>
      injection h with h1
      injection h1 with h2 h3
      injection h2 with h4
      subst h4; subst h3
      exact selectRandom_ok hsel
    case h_2 e hsel => simp at h
  · simp at h

theorem composedMask_zone_factors {w : GenWorld} {st : GenState} {r : ℚ}
    {sp : Nat} {em : Option Mask} {i j : Nat}
    (h : composedMask w st
        { whereLoc := .LAND, requiredRadius := r, considerObjects := false,
          considerZones := true, extraZoneSpacing := sp, inZone := none,
          extraMasks := em } i j ≠ 0) :
    allZoneMask w.t st.zones [] i j ≠ 0 ∧
      (sp ≠ 0 → zoneSeperationMask w.t st.zones sp i j ≠ 0) := by
  simp only [composedMask] at h
  cases em with
  | none =>
    by_cases hsp : sp = 0
    · simp [hsp, mulMask, mul_ne_zero_iff] at h
      tauto
    · simp [hsp, mulMask, mul_ne_zero_iff] at h
      tauto
  | some emv =>
    by_cases hsp : sp = 0
    · simp [hsp, mulMask, mul_ne_zero_iff] at h
      tauto
    · simp [hsp, mulMask, mul_ne_zero_iff] at h
      tauto

theorem erodeMask_ne_zero {t : Terrain} {m : Mask} {rr : Nat} {i j : Nat}
    (h : erodeMask t m rr i j ≠ 0) : m i j ≠ 0 := by
  unfold erodeMask at h
  split_ifs at h with hc
  · exact absurd rfl h
  · exact h

theorem stampFold_ne_zero_not_covered {α : Type} {t : Terrain} {q : α → Bool}
    {px pz pr : α → Nat} {l : List α} {g : Mask} {i j : Nat}
    (h : stampFold t q px pz pr l g i j ≠ 0) :
    ∀ a ∈ l, q a = true → i < t.width → j < t.length →
      ¬ distSq i j (px a) (pz a) ≤ (pr a : Int) * (pr a : Int) := by
  rw [stampFold_apply] at h
  intro a ha hq hi hj hd
  rw [if_pos ⟨a, ha, hq, hi, hj, hd⟩] at h
  exact h rfl

/-- What one successful loop iteration of `add_zone` guarantees: the new
zone sits on an in-grid cell, is appended to the zone list, and its centre
is outside every existing zone's radius disc and outside the separation
discs (when the separation mask is in force). -/
theorem tryPlaceZone_ok_some {w : GenWorld} {st : GenState} {zt : ZoneType}
    {cs : ZoneSize} {sub : ZoneSubType} {zidx : Option Int}
    {em : Option Mask} {sp : Nat} {z : ZoneMarker} {st1 : GenState}
    (h : tryPlaceZone w st zt cs sub zidx em sp = .ok (some z, st1)) :
    z.x < w.t.width ∧ z.z < w.t.length ∧
      st1.zones = st.zones ++ [z] ∧ z.zoneSize = cs ∧
      ∀ e ∈ st.zones,
        ((e.radius : Int) * (e.radius : Int) < distSq z.x z.z e.x e.z) ∧
        (sp ≠ 0 → ((sp : Int) * (sp : Int) < distSq z.x z.z e.x e.z)) := by
  unfold tryPlaceZone at h
  split at h
  next e hfind => exact Except.noConfusion h
  next st2 hfind =>
    injection h with h1
    injection h1 with hz hst
    exact Option.noConfusion hz
  next x z0 st2 hfind =>
    injection h with h1
    injection h1 with hz hst1
    injection hz with hz2
    subst hz2
    subst hst1
    obtain ⟨hmem, hst2, _⟩ := findLocation_ok_some hfind
    rw [mem_posCells] at hmem
    obtain ⟨⟨hx, hzl⟩, hpos⟩ := hmem
    dsimp only at hx hzl hpos ⊢
    have hcomp := erodeMask_ne_zero (ne_of_gt hpos)
    obtain ⟨hzone, hsep⟩ := composedMask_zone_factors hcomp
    refine ⟨hx, hzl, by simp [hst2], rfl, ?_⟩
    intro e he
    constructor
    · have hnc := stampFold_ne_zero_not_covered hzone e he (by simp) hx hzl
      omega
    · intro hspne
      have hnc := stampFold_ne_zero_not_covered (hsep hspne) e he rfl hx hzl
      omega

/-- A failed loop iteration of `add_zone` leaves the handler state
untouched. -/
theorem tryPlaceZone_ok_none {w : GenWorld} {st : GenState} {zt : ZoneType}
    {cs : ZoneSize} {sub : ZoneSubType} {zidx : Option Int}
    {em : Option Mask} {sp : Nat} {st1 : GenState}
    (h : tryPlaceZone w st zt cs sub zidx em sp = .ok (none, st1)) :
    st1 = st := by
  unfold tryPlaceZone at h
  split at h
  next e hfind => exact Except.noConfusion h
  next st2 hfind =>
    injection h with h1
    injection h1 with _ hst
    subst hst
    exact findLocation_ok_none hfind
  next x z0 st2 hfind =>
    injection h with h1
    injection h1 with hz hst
    exact Option.noConfusion hz

theorem addZoneFromTiny_sep {w : GenWorld} {st : GenState} {zt : ZoneType}
    {sub : ZoneSubType} {zidx : Option Int} {em : Option Mask} {sp : Nat}
    {z : ZoneMarker} {st1 : GenState}
    (h : addZoneFromTiny w st zt sub zidx em sp = .ok (some z, st1)) :
    st1.zones = st.zones ++ [z] ∧
      ∀ e ∈ st.zones,
        ((e.radius : Int) * (e.radius : Int) < distSq z.x z.z e.x e.z) ∧
        (sp ≠ 0 → ((sp : Int) * (sp : Int) < distSq z.x z.z e.x e.z)) := by
  unfold addZoneFromTiny at h
  split at h
  next e hp => exact Except.noConfusion h
  next z2 st2 hp =>
    injection h with h1
    injection h1 with hz hst
    injection hz with hz2
    subst hz2; subst hst
    have := tryPlaceZone_ok_some hp
    exact ⟨this.2.2.1, this.2.2.2.2⟩
  next st2 hp =>
    injection h with h1
    injection h1 with hz hst
    exact Option.noConfusion hz

theorem addZoneFromSmall_sep {w : GenWorld} {st : GenState} {zt : ZoneType}
    {sub : ZoneSubType} {zidx : Option Int} {em : Option Mask} {sp : Nat}
    {z : ZoneMarker} {st1 : GenState}
    (h : addZoneFromSmall w st zt sub zidx em sp = .ok (some z, st1)) :
    st1.zones = st.zones ++ [z] ∧
      ∀ e ∈ st.zones,
        ((e.radius : Int) * (e.radius : Int) < distSq z.x z.z e.x e.z) ∧
        (sp ≠ 0 → ((sp : Int) * (sp : Int) < distSq z.x z.z e.x e.z)) := by
  unfold addZoneFromSmall at h
  split at h
  next e hp => exact Except.noConfusion h
  next z2 st2 hp =>
    injection h with h1
    injection h1 with hz hst
    injection hz with hz2
    subst hz2; subst hst
    have := tryPlaceZone_ok_some hp
    exact ⟨this.2.2.1, this.2.2.2.2⟩
  next st2 hp =>
    have hst2 : st2 = st := tryPlaceZone_ok_none hp
    subst hst2
    split at h
    · exact addZoneFromTiny_sep h
    · exact Except.noConfusion h

theorem addZoneFromMedium_sep {w : GenWorld} {st : GenState} {zt : ZoneType}
    {sub : ZoneSubType} {zidx : Option Int} {em : Option Mask} {sp : Nat}
    {z : ZoneMarker} {st1 : GenState}
    (h : addZoneFromMedium w st zt sub zidx em sp = .ok (some z, st1)) :
    st1.zones = st.zones ++ [z] ∧
      ∀ e ∈ st.zones,
        ((e.radius : Int) * (e.radius : Int) < distSq z.x z.z e.x e.z) ∧
        (sp ≠ 0 → ((sp : Int) * (sp : Int) < distSq z.x z.z e.x e.z)) := by
  unfold addZoneFromMedium at h
  split at h
  next e hp => exact Except.noConfusion h
  next z2 st2 hp =>
    injection h with h1
    injection h1 with hz hst
    injection hz with hz2
    subst hz2; subst hst
    have := tryPlaceZone_ok_some hp
    exact ⟨this.2.2.1, this.2.2.2.2⟩
  next st2 hp =>
    have hst2 : st2 = st := tryPlaceZone_ok_none hp
    subst hst2
    split at h
    · exact addZoneFromSmall_sep h
    · exact Except.noConfusion h

theorem addZoneFromLarge_sep {w : GenWorld} {st : GenState} {zt : ZoneType}
    {sub : ZoneSubType} {zidx : Option Int} {em : Option Mask} {sp : Nat}
    {z : ZoneMarker} {st1 : GenState}
    (h : addZoneFromLarge w st zt sub zidx em sp = .ok (some z, st1)) :
    st1.zones = st.zones ++ [z] ∧
      ∀ e ∈ st.zones,
        ((e.radius : Int) * (e.radius : Int) < distSq z.x z.z e.x e.z) ∧
        (sp ≠ 0 → ((sp : Int) * (sp : Int) < distSq z.x z.z e.x e.z)) := by
  unfold addZoneFromLarge at h
  split at h
  next e hp => exact Except.noConfusion h
  next z2 st2 hp =>
    injection h with h1
    injection h1 with hz hst
    injection hz with hz2
    subst hz2; subst hst
    have := tryPlaceZone_ok_some hp
    exact ⟨this.2.2.1, this.2.2.2.2⟩
  next st2 hp =>
    have hst2 : st2 = st := tryPlaceZone_ok_none hp
    subst hst2
    split at h
    · exact addZoneFromMedium_sep h
    · exact Except.noConfusion h

theorem addZoneFromXlarge_sep {w : GenWorld} {st : GenState} {zt : ZoneType}
    {sub : ZoneSubType} {zidx : Option Int} {em : Option Mask} {sp : Nat}
    {z : ZoneMarker} {st1 : GenState}
    (h : addZoneFromXlarge w st zt sub zidx em sp = .ok (some z, st1)) :
    st1.zones = st.zones ++ [z] ∧
      ∀ e ∈ st.zones,
        ((e.radius : Int) * (e.radius : Int) < distSq z.x z.z e.x e.z) ∧
        (sp ≠ 0 → ((sp : Int) * (sp : Int) < distSq z.x z.z e.x e.z)) := by
  unfold addZoneFromXlarge at h
  split at h
  next e hp => exact Except.noConfusion h
  next z2 st2 hp =>
    injection h with h1
    injection h1 with hz hst
    injection hz with hz2
    subst hz2; subst hst
    have := tryPlaceZone_ok_some hp
    exact ⟨this.2.2.1, this.2.2.2.2⟩
  next st2 hp =>
    have hst2 : st2 = st := tryPlaceZone_ok_none hp
    subst hst2
    split at h
    · exact addZoneFromLarge_sep h
    · exact Except.noConfusion h

/-! ### Claim theorems -/

/-- C1: the claim says a zone requested at XLARGE in a mask with only
TINY-sized (here: no) free space is retried at successively smaller sizes
down to TINY and that `add_zone` never raises. On the code, the first
failed search at XLARGE evaluates `ZoneSize(6 - 1)` and 5 is not a
`ZoneSize` member, so `add_zone` raises `ValueError` instead of degrading:
on an all-water 4×4 terrain the call errors rather than returning `None`. -/
theorem addZone_xlarge_degradation_raises :
    addZone allWaterWorld initialGenState .BASE .XLARGE .GENERIC_BASE =
      .error .valueError := by
  rfl

set_option maxRecDepth 100000 in
/-- C2 counterexample: two `add_zone(SCRAP, TINY, FUEL_TANKS)` calls on a
flat 47×1 land strip (default `extra_zone_spacing = 40`) place zones at
(0,0) and (45,0); their centre distance is 45 < 5 + 5 + 40, refuting
"distance ≥ radius_a + radius_b + zone-separation margin" for zones placed
by `add_zone`. -/
theorem addZone_separation_counterexample :
    sepState2.zones =
      [{ x := 0, z := 0, zoneType := .SCRAP, zoneSize := .TINY,
         zoneSubType := .FUEL_TANKS, zoneIndex := none },
       { x := 45, z := 0, zoneType := .SCRAP, zoneSize := .TINY,
         zoneSubType := .FUEL_TANKS, zoneIndex := none }] ∧
      ¬ zonePairSeparationClaim 40
        { x := 0, z := 0, zoneType := .SCRAP, zoneSize := .TINY,
          zoneSubType := .FUEL_TANKS, zoneIndex := none }
        { x := 45, z := 0, zoneType := .SCRAP, zoneSize := .TINY,
          zoneSubType := .FUEL_TANKS, zoneIndex := none } := by
  constructor
  · rfl
  · intro hcl
    unfold zonePairSeparationClaim ZoneMarker.radius zoneSizeToRadius distSq
      at hcl
    norm_num at hcl

/-- C2 (amended): when `add_zone` places a zone, the new zone's centre lies
strictly outside every existing zone's radius disc and, whenever the
zone-separation mask is in force (`extra_zone_spacing ≠ 0`), strictly more
than `extra_zone_spacing` away from every existing zone's centre. The
separation the code enforces is measured from the existing zones' centres
only — it does not add the radii of the two zones, so discs may still
overlap (see the counterexample). -/
theorem addZone_separation_amended :
    ∀ (w : GenWorld) (st : GenState) (zt : ZoneType) (zs : ZoneSize)
      (sub : ZoneSubType) (zidx : Option Int) (em : Option Mask) (sp : Nat)
      (z : ZoneMarker) (st1 : GenState),
      addZone w st zt zs sub zidx em sp = .ok (some z, st1) →
      st1.zones = st.zones ++ [z] ∧
        ∀ e ∈ st.zones,
          ((e.radius : Int) * (e.radius : Int) < distSq z.x z.z e.x e.z) ∧
          (sp ≠ 0 → ((sp : Int) * (sp : Int) < distSq z.x z.z e.x e.z)) := by
  intro w st zt zs sub zidx em sp z st1 h
  cases zs
  · exact addZoneFromTiny_sep h
  · exact addZoneFromSmall_sep h
  · exact addZoneFromMedium_sep h
  · exact addZoneFromLarge_sep h
  · exact addZoneFromXlarge_sep h

set_option maxRecDepth 100000 in
/-- Witness for the amended C2 theorem at the concrete strip-world run. -/
theorem addZone_separation_amended_witness :
    addZone flatStripWorld sepState1 .SCRAP .TINY .FUEL_TANKS none none 40 =
        .ok (some sepZone2, sepState2) ∧
      (sepState2.zones = sepState1.zones ++ [sepZone2] ∧
        ∀ e ∈ sepState1.zones,
          ((e.radius : Int) * (e.radius : Int) <
            distSq sepZone2.x sepZone2.z e.x e.z) ∧
          ((40 : Nat) ≠ 0 → ((40 : Int) * (40 : Int) <
            distSq sepZone2.x sepZone2.z e.x e.z))) := by
  refine ⟨rfl, ?_⟩
  exact addZone_separation_amended flatStripWorld sepState1 .SCRAP .TINY
    .FUEL_TANKS none none 40 sepZone2 sepState2 rfl

theorem applyCachedUpdates_mask (t : Terrain) (st : GenState)
    (ps : List (Nat × Nat × Nat)) :
    (applyCachedUpdates t st ps).mask =
      stampFold t (fun _ => true) (fun p => p.1) (fun p => p.2.1)
        (fun p => p.2.2) ps st.mask := by
  induction ps generalizing st with
  | nil => rfl
  | cons p ps ih =>
    show (applyCachedUpdates t
      (updateCachedObjectMask t st p.1 p.2.1 p.2.2) ps).mask = _
    rw [ih]
    rfl

/-- C5: the cached object-occupancy mask starts all 1; after any sequence
of successful placements `(x, z, required_radius)` recorded through
`_update_cached_object_mask`, an in-grid cell is 0 exactly when it lies in
the Euclidean `required_radius` disc of one of those placements — exactly N
discs for N placements, nothing outside them excluded, and nothing ever
reset. -/
theorem cachedObjectMask_exactly_discs :
    ∀ (t : Terrain) (ps : List (Nat × Nat × Nat)) (i j : Nat),
      i < t.width → j < t.length →
      initialGenState.mask i j = 1 ∧
        ((applyCachedUpdates t initialGenState ps).mask i j = 0 ↔
          ∃ p ∈ ps, distSq i j p.1 p.2.1 ≤ (p.2.2 : Int) * (p.2.2 : Int)) := by
  intro t ps i j hi hj
  refine ⟨rfl, ?_⟩
  rw [applyCachedUpdates_mask, stampFold_apply]
  constructor
  · intro h0
    by_cases hc : ∃ a ∈ ps, (fun _ => true) a = true ∧ i < t.width ∧
        j < t.length ∧ distSq i j a.1 a.2.1 ≤ (a.2.2 : Int) * (a.2.2 : Int)
    · obtain ⟨p, hp, _, _, _, hd⟩ := hc
      exact ⟨p, hp, hd⟩
    · rw [if_neg hc] at h0
      exact absurd h0 (by simp [initialGenState, onesMask])
  · rintro ⟨p, hp, hd⟩
    rw [if_pos ⟨p, hp, rfl, hi, hj, hd⟩]

/-- Witness for C5 at a concrete 2×2 terrain with one placement. -/
theorem cachedObjectMask_exactly_discs_witness :
    (0 : Nat) < flatTwoTerrain.width ∧ (1 : Nat) < flatTwoTerrain.length ∧
      (initialGenState.mask 0 1 = 1 ∧
        ((applyCachedUpdates flatTwoTerrain initialGenState
            [(1, 1, 1)]).mask 0 1 = 0 ↔
          ∃ p ∈ [((1 : Nat), (1 : Nat), (1 : Nat))],
            distSq 0 1 p.1 p.2.1 ≤ (p.2.2 : Int) * (p.2.2 : Int))) :=
  ⟨by decide, by decide,
    cachedObjectMask_exactly_discs flatTwoTerrain [(1, 1, 1)] 0 1
      (by decide) (by decide)⟩

/-- C6: the claim (and the repo's own `tests/test_objects.py`) say the land
mask is 1 exactly where height > cutoff and that the water mask is its
pointwise complement. On the code, `_get_land_mask` additionally stamps
1-discs of radius **2** around terrain sign-transition cells (the comment
says "setback ... from the edge" but the stamp writes 1, enlarging the
mask), and `_get_water_mask` uses strict `<`. On the test's 3×3 height map
at the default cutoff −20, cell (0,0) has height −30 ≤ −20 yet land mask 1,
and land + water = 2 ≠ 1 there. -/
theorem landWaterMask_contradicts_threshold_and_complement :
    testHeightTerrain.height 0 0 = -30 ∧
      ¬ ((-20 : Int) < -30) ∧
      landMask testHeightTerrain (-20) 0 0 = 1 ∧
      waterMask testHeightTerrain (-20) 0 0 = 1 ∧
      landMask testHeightTerrain (-20) 0 0 +
          waterMask testHeightTerrain (-20) 0 0 ≠ 1 := by
  exact ⟨rfl, by decide, by decide, by decide, by decide⟩

set_option maxRecDepth 40000 in
/-- C7 counterexample: on a 4×4 all-land terrain the coast mask is empty,
so the carrier's location search returns `None`, and
`add_carrier_and_return_mask` unpacks that result directly
(`x, z = self._find_location(...)`), raising `TypeError` instead of
recovering at the call site. -/
theorem addCarrier_none_raises :
    addCarrierAndReturnMask flatFourWorld initialGenState =
      .error .typeError := by
  rfl

set_option maxRecDepth 40000 in
/-- C7 (amended): object placement skips on a `None` search result and zone
placement degrades below the requested size, but the carrier-placement
search and the rally-point search unpack the search result directly, so a
`None` result raises `TypeError` at those call sites rather than being
recovered: both concrete runs below raise. -/
theorem carrier_and_rally_unpack_none :
    addCarrierAndReturnMask flatFourWorld initialGenState =
        .error .typeError ∧
      addTinyScrapNearCarrierAndCalcRally flatSixWorld initialGenState
          initialAllowedMaxSubtypeZones onesMask =
        .error .typeError := by
  exact ⟨rfl, rfl⟩

/-- C8: the claim says every iteration of
`generate_random_zones(n, SCRAP)` (no explicit size) samples its own zone
size from its sampled subtype's size table. On the code, the loop assigns
the sample back into the `zone_size` parameter, so only the first iteration
samples: with the identity stream, iteration 1 picks DESTROYED_BASE and
samples SMALL, and iteration 2 picks WEAPON_CRATE and silently reuses
SMALL — only 3 RNG draws happen (subtype, size, subtype), and SMALL is not
even in WEAPON_CRATE's allowed size table, which is exactly `[TINY]`. -/
theorem generateRandomZones_reuses_first_size :
    scrapPlanList =
        [(.SCRAP, .SMALL, .DESTROYED_BASE, none),
         (.SCRAP, .SMALL, .WEAPON_CRATE, none)] ∧
      scrapPlanDraws = 3 ∧
      (ALLOWED_ZONE_SIZE_WEIGHTS .SCRAP .WEAPON_CRATE).map Prod.fst =
        [.TINY] := by
  exact ⟨rfl, rfl, rfl⟩

theorem foldl_ob3AddObject {α : Type} (ot : α → String)
    (loc : α → Int × Int × Int) (att : α → String) (tm : α → Int)
    (l : List α) (s0 : GenState) :
    l.foldl (fun s o => (ob3AddObject s (ot o) (loc o) (att o) (tm o)).2) s0 =
      { s0 with
          objects := s0.objects ++
            l.map (fun o =>
              { objectType := ot o, locX := (loc o).1, locY := (loc o).2.1,
                locZ := (loc o).2.2, team := tm o,
                attachmentType := att o }) } := by
  induction l generalizing s0 with
  | nil => cases s0; simp
  | cons o l ih =>
    rw [List.foldl_cons, ih]
    cases s0
    simp [ob3AddObject]

/-- C10: when the location search of `add_object_on_land_random` succeeds
but the terrain height at the chosen cell plus `y_offset` is negative, the
call returns `None` and the handler state is untouched: the cached object
mask is not stamped, no object is appended and the zone list is unchanged,
so the height/water rejection consumes no occupancy. -/
theorem addObject_height_reject_no_side_effects :
    ∀ (w : GenWorld) (st : GenState) (objectType attachmentType : String)
      (team : Int) (yOffset : Int) (requiredRadius : ℚ)
      (considerZones : Bool) (inZone : Option ZoneMarker)
      (x z : Nat) (st1 : GenState),
      findLocation w st
          { requiredRadius := requiredRadius,
            considerZones := considerZones, inZone := inZone } =
        .ok (some (x, z), st1) →
      w.t.height x z + yOffset < 0 →
      addObjectOnLandRandom w st objectType attachmentType team yOffset
          requiredRadius considerZones inZone = .ok (none, st1) ∧
        st1.mask = st.mask ∧ st1.objects = st.objects ∧
        st1.zones = st.zones := by
  intro w st objectType attachmentType team yOffset requiredRadius
    considerZones inZone x z st1 hfind hneg
  have hst1 := (findLocation_ok_some hfind).2.1
  refine ⟨?_, by rw [hst1], by rw [hst1], by rw [hst1]⟩
  unfold addObjectOnLandRandom
  rw [hfind]
  exact if_pos hneg

/-- Witness for C10 on a flat 2×2 land world with `y_offset = -200`. -/
theorem addObject_height_reject_witness :
    flatTwoWorld.t.height 0 0 + (-200 : Int) < 0 ∧
      (addObjectOnLandRandom flatTwoWorld initialGenState "palm1" "" 1
          (-200) 1 false none =
          .ok (none, { initialGenState with rngK := 1 }) ∧
        ({ initialGenState with rngK := 1 } : GenState).mask =
          initialGenState.mask ∧
        ({ initialGenState with rngK := 1 } : GenState).objects =
          initialGenState.objects ∧
        ({ initialGenState with rngK := 1 } : GenState).zones =
          initialGenState.zones) := by
  refine ⟨by decide, ?_⟩
  exact addObject_height_reject_no_side_effects flatTwoWorld initialGenState
    "palm1" "" 1 (-200) 1 false none 0 0
    { initialGenState with rngK := 1 } rfl (by decide)

/-- C9: in `add_object_template_on_land_random`, if the anchor search
returns `None`, or the terrain height at the anchor cell plus the anchor's
`y_offset` is negative, zero template members are placed (object list and
cached mask unchanged); otherwise the anchor is placed at the found cell
and every other member is placed at its fixed template offset from the
anchor — one mask stamp, one RNG draw, and no further search. -/
theorem template_anchor_atomicity :
    ∀ (w : GenWorld) (st : GenState) (ref : ObjectContainer)
      (rest : List ObjectContainer) (cz : Bool) (iz : Option ZoneMarker)
      (em : Option Mask) (tov : Option Int),
      (∀ st1, findLocation w st
          { requiredRadius := ref.requiredRadius, considerZones := cz,
            inZone := iz, extraMasks := em } = .ok (none, st1) →
        addObjectTemplateOnLandRandom w st (ref :: rest) cz iz em tov =
            .ok st1 ∧ st1.objects = st.objects ∧ st1.mask = st.mask) ∧
      (∀ x z st1, findLocation w st
          { requiredRadius := ref.requiredRadius, considerZones := cz,
            inZone := iz, extraMasks := em } = .ok (some (x, z), st1) →
        w.t.height x z + ref.yOffset < 0 →
        addObjectTemplateOnLandRandom w st (ref :: rest) cz iz em tov =
            .ok st1 ∧ st1.objects = st.objects ∧ st1.mask = st.mask) ∧
      (∀ x z st1, findLocation w st
          { requiredRadius := ref.requiredRadius, considerZones := cz,
            inZone := iz, extraMasks := em } = .ok (some (x, z), st1) →
        ¬ w.t.height x z + ref.yOffset < 0 →
        addObjectTemplateOnLandRandom w st (ref :: rest) cz iz em tov =
          .ok { mask := updateMaskGridWithRadius w.t st.mask x z
                  (pyTrunc ref.requiredRadius).toNat 0,
                zones := st.zones,
                objects := st.objects ++
                  ({ objectType := ref.objectType, locX := (x : Int),
                     locY := w.t.height x z + ref.yOffset,
                     locZ := (z : Int),
                     team := truthyTeamOverride tov ref.team,
                     attachmentType := ref.attachmentType } ::
                    rest.map (templateMemberObject x z (w.t.height x z)
                      ref.yOffset tov)),
                rngK := st.rngK + 1 }) := by
  intro w st ref rest cz iz em tov
  refine ⟨?_, ?_, ?_⟩
  · intro st1 hfind
    have hst1 := findLocation_ok_none hfind
    subst hst1
    refine ⟨?_, rfl, rfl⟩
    unfold addObjectTemplateOnLandRandom
    dsimp only
    rw [hfind]
  · intro x z st1 hfind hneg
    have hst1 := (findLocation_ok_some hfind).2.1
    refine ⟨?_, by rw [hst1], by rw [hst1]⟩
    unfold addObjectTemplateOnLandRandom
    dsimp only
    rw [hfind]
    dsimp only
    rw [if_pos hneg]
  · intro x z st1 hfind hnneg
    have hst1 := (findLocation_ok_some hfind).2.1
    unfold addObjectTemplateOnLandRandom
    dsimp only
    rw [hfind]
    dsimp only
    rw [if_neg hnneg]
    rw [foldl_ob3AddObject (fun o => o.objectType)
        (fun o => ((x : Int) + o.templateXOffset,
          w.t.height x z + ref.yOffset + o.templateYOffset,
          (z : Int) + o.templateZOffset))
        (fun o => o.attachmentType)
        (fun o => truthyTeamOverride tov o.team) rest]
    rw [hst1]
    simp [ob3AddObject, updateCachedObjectMask, templateMemberObject,
      List.append_assoc]

/-- Witness for C9: the anchor of a two-element template is found at (0,0)
on flat land of height 100, but its `y_offset` of −200 fails the water
check, so nothing is placed. -/
theorem template_anchor_atomicity_witness :
    addObjectTemplateOnLandRandom flatTwoWorld initialGenState
        [sunkenRef, offsetMember] false none none none =
        .ok { initialGenState with rngK := 1 } ∧
      ({ initialGenState with rngK := 1 } : GenState).objects =
        initialGenState.objects ∧
      ({ initialGenState with rngK := 1 } : GenState).mask =
        initialGenState.mask := by
  exact (template_anchor_atomicity flatTwoWorld initialGenState sunkenRef
    [offsetMember] false none none none).2.1 0 0
    { initialGenState with rngK := 1 } rfl (by decide)

theorem gridAnyB_eq_false_iff (t : Terrain) (p : Nat → Nat → Bool) :
    gridAnyB t p = false ↔
      ∀ x, x < t.width → ∀ z, z < t.length → p x z = false := by
  unfold gridAnyB
  simp [List.any_eq_false, List.mem_range]

set_option maxHeartbeats 2000000 in
theorem binaryMask_composedMask (w : GenWorld) (st : GenState) (a : FindArgs)
    (hm : binaryMask st.mask)
    (he : ∀ em2, a.extraMasks = some em2 → binaryMask em2) :
    binaryMask (composedMask w st a) := by
  obtain ⟨wl, rq, co, cz, sp, iz, em⟩ := a
  intro i j
  simp only [composedMask]
  rcases iz with _ | zm <;> rcases wl <;> rcases co <;>
    rcases em with _ | emv <;> dsimp only <;> split_ifs <;>
    exact (by
      repeat first
        | exact binaryMask_onesMask
        | exact binaryMask_landMask w.t (-20)
        | exact binaryMask_waterMask w.t (-20)
        | exact binaryMask_coastMask w.t (-20) 50
        | exact binaryMask_allZoneMask w.t st.zones []
        | exact binaryMask_zoneSeperationMask w.t st.zones sp
        | exact binaryMask_inclusionMaskAtLocation w.t zm.x zm.z zm.radius
        | exact hm
        | exact he emv rfl
        | refine binaryMask_mulMask ?_ ?_ : binaryMask _) i j

theorem findLocation_eq_ok_none_iff (w : GenWorld) (st : GenState)
    (a : FindArgs) :
    findLocation w st a = .ok (none, st) ↔
      gridAnyB w.t (fun x z =>
        decide (erodeMask w.t (composedMask w st a)
          ((max 1 (pyRound a.requiredRadius)).toNat / 2) x z ≠ 0)) =
        false := by
  constructor
  · intro h
    by_contra hne
    have htrue : gridAnyB w.t (fun x z =>
        decide (erodeMask w.t (composedMask w st a)
          ((max 1 (pyRound a.requiredRadius)).toNat / 2) x z ≠ 0)) = true := by
      cases hb : gridAnyB w.t (fun x z =>
          decide (erodeMask w.t (composedMask w st a)
            ((max 1 (pyRound a.requiredRadius)).toNat / 2) x z ≠ 0)) with
      | false => exact absurd hb hne
      | true => rfl
    simp only [findLocation] at h
    rw [if_pos htrue] at h
    split at h
    next u st2 hsel => simp at h
    next e hsel => simp at h
  · intro hfalse
    simp only [findLocation]
    rw [if_neg (by rw [hfalse]; exact Bool.false_ne_true)]

/-- C3: in `_find_location`, after the mask is composed the effective
radius is `max(1, round(required_radius))` and the candidate mask is the
composed mask with a 0-disc of radius `effective_radius // 2` stamped at
every in-grid transition cell of the composed mask; if any cell of that
eroded mask remains 1 the function returns the cell at the RNG draw's index
among the positive cells (in row-major order) and advances the RNG once,
and if none remains it returns `None`; it never raises (given boolean
occupancy/extra masks, as produced by the handler). -/
theorem findLocation_spec :
    ∀ (w : GenWorld) (st : GenState) (a : FindArgs),
      binaryMask st.mask →
      (∀ em2, a.extraMasks = some em2 → binaryMask em2) →
      (∀ i j, erodeMask w.t (composedMask w st a)
          ((max 1 (pyRound a.requiredRadius)).toNat / 2) i j =
          if i < w.t.width ∧ j < w.t.length ∧
              ∃ x, x < w.t.width ∧ ∃ z, z < w.t.length ∧
                distSq i j x z ≤
                    (((max 1 (pyRound a.requiredRadius)).toNat / 2 : Nat) : Int) *
                      (((max 1 (pyRound a.requiredRadius)).toNat / 2 : Nat) : Int) ∧
                  binaryTransitionMask w.t (composedMask w st a) x z = 1
          then 0 else composedMask w st a i j) ∧
        (findLocation w st a = .ok (none, st) ↔
          ∀ i, i < w.t.width → ∀ j, j < w.t.length →
            erodeMask w.t (composedMask w st a)
              ((max 1 (pyRound a.requiredRadius)).toNat / 2) i j = 0) ∧
        (∀ v st1, findLocation w st a = .ok (some v, st1) →
          v.1 < w.t.width ∧ v.2 < w.t.length ∧
            erodeMask w.t (composedMask w st a)
              ((max 1 (pyRound a.requiredRadius)).toNat / 2) v.1 v.2 = 1 ∧
            st1 = { st with rngK := st.rngK + 1 } ∧
            (posCells w.t (erodeMask w.t (composedMask w st a)
                ((max 1 (pyRound a.requiredRadius)).toNat / 2))).get?
              (w.stream st.rngK %
                (posCells w.t (erodeMask w.t (composedMask w st a)
                  ((max 1 (pyRound a.requiredRadius)).toNat / 2))).length) =
              some v) ∧
        (∀ e, findLocation w st a ≠ .error e) := by
  intro w st a hm he
  have hbin : binaryMask (erodeMask w.t (composedMask w st a)
      ((max 1 (pyRound a.requiredRadius)).toNat / 2)) :=
    binaryMask_erodeMask w.t (binaryMask_composedMask w st a hm he) _
  refine ⟨?_, ?_, ?_, ?_⟩
  · intro i j
    unfold erodeMask
    refine if_congr ?_ rfl rfl
    simp only [gridAnyB_eq_true_iff, Bool.and_eq_true, decide_eq_true_eq,
      and_assoc]
  · rw [findLocation_eq_ok_none_iff, gridAnyB_eq_false_iff]
    constructor
    · intro h i hi j hj
      have h2 := h i hi j hj
      simpa using h2
    · intro h i hi j hj
      simp [h i hi j hj]
  · intro v st1 hf
    obtain ⟨hmem, hst1, hget⟩ := findLocation_ok_some hf
    rw [mem_posCells] at hmem
    rcases hbin v.1 v.2 with h0 | h1
    · rw [h0] at hmem
      exact absurd hmem.2 (by norm_num)
    · exact ⟨hmem.1.1, hmem.1.2, h1, hst1, hget⟩
  · intro e hf
    cases hany : gridAnyB w.t (fun x z =>
        decide (erodeMask w.t (composedMask w st a)
          ((max 1 (pyRound a.requiredRadius)).toNat / 2) x z ≠ 0)) with
    | false =>
      simp only [findLocation] at hf
      rw [if_neg (by rw [hany]; exact Bool.false_ne_true)] at hf
      exact Except.noConfusion hf
    | true =>
      obtain ⟨x, hx, z, hz, hdec⟩ := (gridAnyB_eq_true_iff _ _).mp hany
      have hne := of_decide_eq_true hdec
      have hmempos : (x, z) ∈ posCells w.t (erodeMask w.t (composedMask w st a)
          ((max 1 (pyRound a.requiredRadius)).toNat / 2)) := by
        rw [mem_posCells]
        rcases hbin x z with h0 | h1
        · exact absurd h0 hne
        · exact ⟨⟨hx, hz⟩, by rw [h1]; norm_num⟩
      have hlen : (posCells w.t (erodeMask w.t (composedMask w st a)
          ((max 1 (pyRound a.requiredRadius)).toNat / 2))).length ≠ 0 := by
        have := List.length_pos.mpr (List.ne_nil_of_mem hmempos)
        omega
      simp only [findLocation] at hf
      rw [if_pos hany] at hf
      split at hf
      next u st2 hsel => exact Except.noConfusion hf
      next e2 hsel =>
        exact selectRandom_error hsel hlen

/-- Witness for C3 on a 2×2 flat-land world with default search
arguments. -/
theorem findLocation_spec_witness :
    binaryMask initialGenState.mask ∧
      ((∀ i j, erodeMask flatTwoWorld.t
          (composedMask flatTwoWorld initialGenState {})
          ((max 1 (pyRound ({} : FindArgs).requiredRadius)).toNat / 2) i j =
          if i < flatTwoWorld.t.width ∧ j < flatTwoWorld.t.length ∧
              ∃ x, x < flatTwoWorld.t.width ∧
                ∃ z, z < flatTwoWorld.t.length ∧
                  distSq i j x z ≤
                      (((max 1 (pyRound ({} : FindArgs).requiredRadius)).toNat / 2 : Nat) : Int) *
                        (((max 1 (pyRound ({} : FindArgs).requiredRadius)).toNat / 2 : Nat) : Int) ∧
                    binaryTransitionMask flatTwoWorld.t
                      (composedMask flatTwoWorld initialGenState {}) x z = 1
          then 0
          else composedMask flatTwoWorld initialGenState {} i j) ∧
        (findLocation flatTwoWorld initialGenState {} =
            .ok (none, initialGenState) ↔
          ∀ i, i < flatTwoWorld.t.width → ∀ j, j < flatTwoWorld.t.length →
            erodeMask flatTwoWorld.t
              (composedMask flatTwoWorld initialGenState {})
              ((max 1 (pyRound ({} : FindArgs).requiredRadius)).toNat / 2)
              i j = 0) ∧
        (∀ v st1, findLocation flatTwoWorld initialGenState {} =
            .ok (some v, st1) →
          v.1 < flatTwoWorld.t.width ∧ v.2 < flatTwoWorld.t.length ∧
            erodeMask flatTwoWorld.t
              (composedMask flatTwoWorld initialGenState {})
              ((max 1 (pyRound ({} : FindArgs).requiredRadius)).toNat / 2)
              v.1 v.2 = 1 ∧
            st1 = { initialGenState with rngK := initialGenState.rngK + 1 } ∧
            (posCells flatTwoWorld.t (erodeMask flatTwoWorld.t
                (composedMask flatTwoWorld initialGenState {})
                ((max 1 (pyRound ({} : FindArgs).requiredRadius)).toNat / 2))).get?
              (flatTwoWorld.stream initialGenState.rngK %
                (posCells flatTwoWorld.t (erodeMask flatTwoWorld.t
                  (composedMask flatTwoWorld initialGenState {})
                  ((max 1 (pyRound ({} : FindArgs).requiredRadius)).toNat / 2))).length) =
              some v) ∧
        (∀ e, findLocation flatTwoWorld initialGenState {} ≠ .error e)) := by
  refine ⟨fun i j => Or.inr rfl, ?_⟩
  exact findLocation_spec flatTwoWorld initialGenState {}
    (fun i j => Or.inr rfl) (fun em2 h => Option.noConfusion h)

/-- C4: determinism — two independent generation runs started from equal
seeds and executing the same call sequence produce the same result: the
same zone-placement sequence, the same object sequence, and bit-identical
height grids. In the embedding every component draws from the single
seeded stream (`mtStream seed`) and the noise field is a pure function of
the seed, so the run output is a function of (seed, call sequence) alone. -/
theorem runGeneration_deterministic :
    ∀ (seed1 seed2 width length : Nat) (calls : List GenCall),
      seed1 = seed2 →
      runGeneration seed1 width length calls =
          runGeneration seed2 width length calls ∧
        ∀ t1 st1 t2 st2,
          runGeneration seed1 width length calls = .ok (t1, st1) →
          runGeneration seed2 width length calls = .ok (t2, st2) →
          st1.zones = st2.zones ∧ st1.objects = st2.objects ∧
            ∀ x z, t1.height x z = t2.height x z := by
  intro seed1 seed2 width length calls hs
  subst hs
  refine ⟨rfl, ?_⟩
  intro t1 st1 t2 st2 h1 h2
  rw [h1] at h2
  injection h2 with h3
  injection h3 with ht hst
  subst ht
  subst hst
  exact ⟨rfl, rfl, fun x z => rfl⟩

/-- Witness for C4 at seed 42 on a 3×3 run that shapes terrain and places
one zone. -/
theorem runGeneration_deterministic_witness :
    runGeneration 42 3 3 [.genTerrain, .addZoneCall .SCRAP .TINY .FUEL_TANKS] =
        runGeneration 42 3 3
          [.genTerrain, .addZoneCall .SCRAP .TINY .FUEL_TANKS] ∧
      ∀ t1 st1 t2 st2,
        runGeneration 42 3 3
            [.genTerrain, .addZoneCall .SCRAP .TINY .FUEL_TANKS] =
          .ok (t1, st1) →
        runGeneration 42 3 3
            [.genTerrain, .addZoneCall .SCRAP .TINY .FUEL_TANKS] =
          .ok (t2, st2) →
        st1.zones = st2.zones ∧ st1.objects = st2.objects ∧
          ∀ x z, t1.height x z = t2.height x z :=
  runGeneration_deterministic 42 42 3 3
    [.genTerrain, .addZoneCall .SCRAP .TINY .FUEL_TANKS] rfl
